import Mathlib

/-!
Shallow embedding of the ledger core of the payments exercise
(`src/ledger.rs` and `src/hashmap_ledger.rs`).

Modelling choices:
- `rust_decimal::Decimal` (exact decimal arithmetic) is modelled as `Rat`;
  all amounts in the claims are small, far from `Decimal` overflow.
- `u16` client ids and `u32` transaction ids are modelled as `Nat`; the code
  only compares and formats them, so wrap-around never matters.
- `HashMap<K, V>` is modelled as a function `Nat → Option V`, with point
  update `mapUpdate`; `entry(..).or_insert_with(..)` becomes `getOrInsert`,
  which inserts only when the key is vacant, exactly like the Rust entry API.
- `&mut self` methods returning `Result<(), String>` become pure functions
  returning the result paired with the next state; the error strings are the
  exact strings the source builds (with `format!` rendered via `toString`).
-/

namespace Payments

/-! ### Data model and ledger operations, translated from the source -/

/-- From `ledger.rs`: per-client account record. -/
structure Account where
  client_id : Nat
  available : Rat
  held : Rat
  is_locked : Bool
deriving DecidableEq, Repr

/-- From `ledger.rs`: `Account::new` — fresh zeroed unlocked account. -/
def Account.new (client_id : Nat) : Account :=
  { client_id := client_id
    available := 0
    held := 0
    is_locked := false }

/-- From `ledger.rs`: `Account::total`. -/
def Account.total (a : Account) : Rat :=
  a.available + a.held

/-- From `ledger.rs`: deposit or withdrawal. -/
inductive StandardTransactionType where
  | Deposit
  | Withdrawal
deriving DecidableEq, Repr

/-- From `ledger.rs`: dispute lifecycle status stored on a standard transaction. -/
inductive DisputeStatus where
  | Unresolved
  | Chargeback
deriving DecidableEq, Repr

/-- From `ledger.rs`: a recorded deposit/withdrawal. -/
structure StandardTransaction where
  tx_type : StandardTransactionType
  client_id : Nat
  tx_id : Nat
  amount : Rat
  dispute_status : Option DisputeStatus
deriving DecidableEq, Repr

/-- From `ledger.rs`: dispute / resolve / chargeback instruction kinds. -/
inductive DisputeTransactionType where
  | Dispute
  | Resolve
  | Chargeback
deriving DecidableEq, Repr

/-- From `ledger.rs`: a dispute-family instruction (never stored). -/
structure DisputeTransaction where
  tx_type : DisputeTransactionType
  client_id : Nat
  tx_id : Nat
deriving DecidableEq, Repr

/-- From `ledger.rs`: the transaction sum type fed to the ledger. -/
inductive Transaction where
  | Standard (t : StandardTransaction)
  | Dispute (t : DisputeTransaction)
deriving DecidableEq, Repr

/-- Point update of a map modelled as a function into `Option`. -/
def mapUpdate {α : Type} (f : Nat → Option α) (k : Nat) (v : α) : Nat → Option α :=
  fun k' => if k' = k then some v else f k'

/-- From `hashmap_ledger.rs`: the two hash maps of `HashMapLedger`. -/
structure HashMapLedger where
  transactions_by_id : Nat → Option StandardTransaction
  accounts_by_client_id : Nat → Option Account

/-- From `hashmap_ledger.rs`: `HashMapLedger::new` — both maps empty. -/
def HashMapLedger.new : HashMapLedger :=
  { transactions_by_id := fun _ => none
    accounts_by_client_id := fun _ => none }

/-- `entry(client_id).or_insert_with(|| Account::new(client_id))`: returns the
existing account, or inserts and returns a fresh one. -/
def getOrInsert (st : HashMapLedger) (client_id : Nat) : Account × HashMapLedger :=
  match st.accounts_by_client_id client_id with
  | some account => (account, st)
  | none =>
    (Account.new client_id,
      { st with accounts_by_client_id :=
          mapUpdate st.accounts_by_client_id client_id (Account.new client_id) })

/-- From `hashmap_ledger.rs`: `HashMapLedger::handle_standard`, with the state
threaded explicitly. Branches and their order follow the source exactly:
amount check, get-or-create, lock check, funds check, balance mutation, and
only then the duplicate-id check on insertion. -/
def handle_standard (st : HashMapLedger) (t : StandardTransaction) :
    Except String Unit × HashMapLedger :=
  if t.amount ≤ 0 then
    (.error "Amount cannot be negative", st)
  else
    let p := getOrInsert st t.client_id
    let account := p.1
    let st1 := p.2
    if account.is_locked then
      (.error ("Account is locked for client id: " ++ toString t.client_id), st1)
    else if t.tx_type = StandardTransactionType.Withdrawal ∧ account.available < t.amount then
      (.error "Insufficient funds available to process withdrawal", st1)
    else
      let avail2 :=
        match t.tx_type with
        | StandardTransactionType.Deposit => account.available + t.amount
        | StandardTransactionType.Withdrawal => account.available - t.amount
      let account2 := { account with available := avail2 }
      let st2 := { st1 with
        accounts_by_client_id := mapUpdate st1.accounts_by_client_id t.client_id account2 }
      match st2.transactions_by_id t.tx_id with
      | some _ => (.error ("Duplicate transaction id: " ++ toString t.tx_id), st2)
      | none =>
        (.ok (), { st2 with
          transactions_by_id := mapUpdate st2.transactions_by_id t.tx_id t })

/-- From `hashmap_ledger.rs`: `HashMapLedger::handle_dispute`, with the state
threaded explicitly. Checks in source order: account lookup, transaction
lookup, client match, withdrawal rejection, then the per-kind status branch. -/
def handle_dispute (st : HashMapLedger) (t : DisputeTransaction) :
    Except String Unit × HashMapLedger :=
  match st.accounts_by_client_id t.client_id with
  | none => (.error ("No account found with client id: " ++ toString t.client_id), st)
  | some account =>
    match st.transactions_by_id t.tx_id with
    | none => (.error ("No transaction found with id: " ++ toString t.tx_id), st)
    | some txd =>
      if t.client_id ≠ txd.client_id then
        (.error ("Transaction with id " ++ toString t.tx_id ++
          " does not belong to client " ++ toString t.client_id), st)
      else
        match txd.tx_type with
        | StandardTransactionType.Withdrawal =>
          (.error "Cannot dispute withdrawals", st)
        | StandardTransactionType.Deposit =>
          match t.tx_type with
          | DisputeTransactionType.Dispute =>
            match txd.dispute_status with
            | some _ => (.error "Transaction already disputed", st)
            | none =>
              (.ok (),
                { transactions_by_id := mapUpdate st.transactions_by_id t.tx_id
                    { txd with dispute_status := some DisputeStatus.Unresolved }
                  accounts_by_client_id := mapUpdate st.accounts_by_client_id t.client_id
                    { account with
                        available := account.available - txd.amount
                        held := account.held + txd.amount } })
          | DisputeTransactionType.Resolve =>
            match txd.dispute_status with
            | none => (.error "Transaction not disputed, cannot resolve", st)
            | some DisputeStatus.Chargeback =>
              (.error "Transaction already charged back, cannot resolve", st)
            | some DisputeStatus.Unresolved =>
              (.ok (),
                { transactions_by_id := mapUpdate st.transactions_by_id t.tx_id
                    { txd with dispute_status := none }
                  accounts_by_client_id := mapUpdate st.accounts_by_client_id t.client_id
                    { account with
                        available := account.available + txd.amount
                        held := account.held - txd.amount } })
          | DisputeTransactionType.Chargeback =>
            match txd.dispute_status with
            | none => (.error "Transaction not disputed, cannot chargeback", st)
            | some DisputeStatus.Chargeback =>
              (.error "Transaction already charged back, cannot chargeback", st)
            | some DisputeStatus.Unresolved =>
              (.ok (),
                { transactions_by_id := mapUpdate st.transactions_by_id t.tx_id
                    { txd with dispute_status := some DisputeStatus.Chargeback }
                  accounts_by_client_id := mapUpdate st.accounts_by_client_id t.client_id
                    { account with
                        held := account.held - txd.amount
                        is_locked := true } })

/-- From `hashmap_ledger.rs`: `Ledger::handle_transaction` for `HashMapLedger`. -/
def handle_transaction (st : HashMapLedger) (t : Transaction) :
    Except String Unit × HashMapLedger :=
  match t with
  | Transaction.Standard s => handle_standard st s
  | Transaction.Dispute d => handle_dispute st d

/-- A recorded deposit of 5 for client 1, transaction id 1. -/
def depTx5 : StandardTransaction :=
  { tx_type := StandardTransactionType.Deposit
    client_id := 1
    tx_id := 1
    amount := 5
    dispute_status := none }

/-- Ledger holding `depTx5` and client 1's account with available 5. -/
def stDup : HashMapLedger :=
  { transactions_by_id := mapUpdate (fun _ => none) 1 depTx5
    accounts_by_client_id := mapUpdate (fun _ => none) 1
      { client_id := 1, available := 5, held := 0, is_locked := false } }

/-- A second deposit reusing transaction id 1 (amount 7, client 1). -/
def depTx7 : StandardTransaction :=
  { tx_type := StandardTransactionType.Deposit
    client_id := 1
    tx_id := 1
    amount := 7
    dispute_status := none }

/-- A recorded deposit of 1 for client 1, transaction id 1 (deficit fixture). -/
def negRec : StandardTransaction :=
  { tx_type := StandardTransactionType.Deposit
    client_id := 1
    tx_id := 1
    amount := 1
    dispute_status := none }

/-- Ledger where client 1 has only 1/2 available but deposit `negRec` of 1 recorded. -/
def negSt : HashMapLedger :=
  { transactions_by_id := mapUpdate (fun _ => none) 1 negRec
    accounts_by_client_id := mapUpdate (fun _ => none) 1
      { client_id := 1, available := 1/2, held := 0, is_locked := false } }

/-- Dispute of transaction 1 by client 1. -/
def negD : DisputeTransaction :=
  { tx_type := DisputeTransactionType.Dispute, client_id := 1, tx_id := 1 }

/-- A deposit of 1 for client 1 under dispute (status Unresolved). -/
def cbRec : StandardTransaction :=
  { tx_type := StandardTransactionType.Deposit
    client_id := 1
    tx_id := 1
    amount := 1
    dispute_status := some DisputeStatus.Unresolved }

/-- Ledger where deposit 1 is under dispute and client 1 holds 1 in held. -/
def cbSt : HashMapLedger :=
  { transactions_by_id := mapUpdate (fun _ => none) 1 cbRec
    accounts_by_client_id := mapUpdate (fun _ => none) 1
      { client_id := 1, available := -(1/2), held := 1, is_locked := false } }

/-- Chargeback of transaction 1 by client 1. -/
def cbD : DisputeTransaction :=
  { tx_type := DisputeTransactionType.Chargeback, client_id := 1, tx_id := 1 }

/-- A recorded deposit of 3 for client 1, transaction id 2. -/
def lockedRec : StandardTransaction :=
  { tx_type := StandardTransactionType.Deposit
    client_id := 1
    tx_id := 2
    amount := 3
    dispute_status := none }

/-- Ledger where client 1 is locked and the undisputed deposit `lockedRec` is recorded. -/
def stLockedDisp : HashMapLedger :=
  { transactions_by_id := mapUpdate (fun _ => none) 2 lockedRec
    accounts_by_client_id := mapUpdate (fun _ => none) 1
      { client_id := 1, available := 3, held := 0, is_locked := true } }

/-- Dispute of transaction 2 by (locked) client 1. -/
def dOnLocked : DisputeTransaction :=
  { tx_type := DisputeTransactionType.Dispute, client_id := 1, tx_id := 2 }

/-- Zero-amount deposit for (locked) client 1. -/
def zeroDepLocked : StandardTransaction :=
  { tx_type := StandardTransactionType.Deposit
    client_id := 1
    tx_id := 7
    amount := 0
    dispute_status := none }

/-- A positive deposit for (locked) client 1. -/
def posDepLocked : StandardTransaction :=
  { tx_type := StandardTransactionType.Deposit
    client_id := 1
    tx_id := 9
    amount := 4
    dispute_status := none }

/-- A recorded withdrawal (given an arbitrary dispute status to show generality). -/
def wdRec : StandardTransaction :=
  { tx_type := StandardTransactionType.Withdrawal
    client_id := 1
    tx_id := 3
    amount := 2
    dispute_status := some DisputeStatus.Unresolved }

/-- Ledger with the withdrawal `wdRec` recorded and client 1 locked. -/
def wdSt : HashMapLedger :=
  { transactions_by_id := mapUpdate (fun _ => none) 3 wdRec
    accounts_by_client_id := mapUpdate (fun _ => none) 1
      { client_id := 1, available := 0, held := 0, is_locked := true } }

/-- Resolve referencing the recorded withdrawal. -/
def wdD : DisputeTransaction :=
  { tx_type := DisputeTransactionType.Resolve, client_id := 1, tx_id := 3 }

/-- First-ever withdrawal for the unseen client 1. -/
def firstWd : StandardTransaction :=
  { tx_type := StandardTransactionType.Withdrawal
    client_id := 1
    tx_id := 1
    amount := 5
    dispute_status := none }

/-! ### Basic lemmas about the map model and the handlers -/

theorem mapUpdate_same {α : Type} (f : Nat → Option α) (k : Nat) (v : α) :
    mapUpdate f k v k = some v := by
  simp [mapUpdate]

theorem mapUpdate_other {α : Type} (f : Nat → Option α) (k k' : Nat) (v : α)
    (h : k' ≠ k) : mapUpdate f k v k' = f k' := by
  simp [mapUpdate, h]

theorem mapUpdate_self {α : Type} (f : Nat → Option α) (k : Nat) (v : α)
    (h : f k = some v) : mapUpdate f k v = f := by
  funext k'
  by_cases hk : k' = k
  · subst hk; simp [mapUpdate, h]
  · simp [mapUpdate, hk]

theorem getOrInsert_of_some (st : HashMapLedger) (c : Nat) (a : Account)
    (h : st.accounts_by_client_id c = some a) : getOrInsert st c = (a, st) := by
  simp [getOrInsert, h]

theorem getOrInsert_of_none (st : HashMapLedger) (c : Nat)
    (h : st.accounts_by_client_id c = none) :
    getOrInsert st c = (Account.new c,
      { st with accounts_by_client_id :=
          mapUpdate st.accounts_by_client_id c (Account.new c) }) := by
  simp [getOrInsert, h]

theorem getOrInsert_transactions (st : HashMapLedger) (c : Nat) :
    ((getOrInsert st c).2).transactions_by_id = st.transactions_by_id := by
  unfold getOrInsert
  cases st.accounts_by_client_id c <;> rfl

/-- `handle_dispute` either succeeds or leaves the state untouched: every
error branch in the source returns before any mutation. -/
theorem handle_dispute_state_or_ok (st : HashMapLedger) (d : DisputeTransaction) :
    (handle_dispute st d).2 = st ∨ (handle_dispute st d).1 = Except.ok () := by
  unfold handle_dispute
  repeat' split
  all_goals first | exact Or.inl rfl | exact Or.inr rfl

/-- On any error, `handle_dispute` leaves the ledger exactly unchanged. -/
theorem handle_dispute_error_state (st : HashMapLedger) (d : DisputeTransaction) (e : String)
    (h : (handle_dispute st d).1 = Except.error e) : (handle_dispute st d).2 = st := by
  rcases handle_dispute_state_or_ok st d with h2 | h2
  · exact h2
  · rw [h2] at h; cases h

theorem handle_standard_preserves_recorded (st : HashMapLedger) (s : StandardTransaction)
    (k : Nat) (rec : StandardTransaction) (h : st.transactions_by_id k = some rec) :
    (handle_standard st s).2.transactions_by_id k = some rec := by
  simp only [handle_standard]
  by_cases h0 : s.amount ≤ 0
  · simp [h0, h]
  · rcases hg : st.accounts_by_client_id s.client_id with _ | a
    · rw [getOrInsert_of_none st s.client_id hg]
      simp only [h0, if_false]
      split
      · exact h
      · split
        · exact h
        · split
          · exact h
          · rename_i hnone
            have hk : k ≠ s.tx_id := by
              intro hk; subst hk; rw [h] at hnone; cases hnone
            simpa [mapUpdate_other _ _ _ _ hk] using h
    · rw [getOrInsert_of_some st s.client_id a hg]
      simp only [h0, if_false]
      split
      · exact h
      · split
        · exact h
        · split
          · exact h
          · rename_i hnone
            have hk : k ≠ s.tx_id := by
              intro hk; subst hk; rw [h] at hnone; cases hnone
            simpa [mapUpdate_other _ _ _ _ hk] using h

theorem handle_dispute_preserves_chargeback (st : HashMapLedger) (d : DisputeTransaction)
    (k : Nat) (rec : StandardTransaction)
    (h : st.transactions_by_id k = some rec)
    (hcb : rec.dispute_status = some DisputeStatus.Chargeback) :
    (handle_dispute st d).2.transactions_by_id k = some rec := by
  unfold handle_dispute
  rcases hA : st.accounts_by_client_id d.client_id with _ | account <;> simp only [hA]
  · exact h
  rcases hT : st.transactions_by_id d.tx_id with _ | txd <;> simp only [hT]
  · exact h
  by_cases hc : d.client_id ≠ txd.client_id
  · simp only [if_pos hc]; exact h
  simp only [if_neg hc]
  have hk : k ≠ d.tx_id ∨ txd = rec := by
    by_cases hk : k = d.tx_id
    · subst hk; rw [h] at hT; exact Or.inr (Option.some.inj hT).symm
    · exact Or.inl hk
  rcases htt : txd.tx_type with _ | _
  · rcases hdt : d.tx_type with _ | _ | _
    · rcases hds : txd.dispute_status with _ | s
      · -- dispute succeeds: txd had no status, so txd ≠ rec, so k ≠ d.tx_id
        rcases hk with hk | hk
        · simp [mapUpdate_other _ _ _ _ hk, h]
        · subst hk; rw [hds] at hcb; cases hcb
      · simp only []; exact h
    · rcases hds : txd.dispute_status with _ | s
      · simp only []; exact h
      · rcases s with _ | _
        · rcases hk with hk | hk
          · simp [mapUpdate_other _ _ _ _ hk, h]
          · subst hk; rw [hds] at hcb; cases hcb
        · simp only []; exact h
    · rcases hds : txd.dispute_status with _ | s
      · simp only []; exact h
      · rcases s with _ | _
        · rcases hk with hk | hk
          · simp [mapUpdate_other _ _ _ _ hk, h]
          · subst hk; rw [hds] at hcb; cases hcb
        · simp only []; exact h
  · simp only []; exact h

theorem chargeback_blocks_dispute_family (st : HashMapLedger) (d : DisputeTransaction)
    (rec : StandardTransaction)
    (h : st.transactions_by_id d.tx_id = some rec)
    (hcb : rec.dispute_status = some DisputeStatus.Chargeback) :
    ∃ e, (handle_dispute st d).1 = Except.error e := by
  unfold handle_dispute
  rcases hA : st.accounts_by_client_id d.client_id with _ | account <;> simp only [hA]
  · exact ⟨_, rfl⟩
  simp only [h]
  by_cases hc : d.client_id ≠ rec.client_id
  · simp only [if_pos hc]; exact ⟨_, rfl⟩
  simp only [if_neg hc]
  rcases htt : rec.tx_type with _ | _
  · rcases hdt : d.tx_type with _ | _ | _ <;> simp only [hcb] <;> exact ⟨_, rfl⟩
  · exact ⟨_, rfl⟩

theorem mapUpdate_locked {A : Nat → Option Account} {cl c : Nat} {acc acc2 : Account}
    (hacc : A c = some acc) (hlock : acc.is_locked = true)
    (hl2 : c = cl → acc2.is_locked = true) :
    ∃ a3, (mapUpdate A cl acc2) c = some a3 ∧ a3.is_locked = true := by
  by_cases he : c = cl
  · subst he; exact ⟨acc2, mapUpdate_same _ _ _, hl2 rfl⟩
  · exact ⟨acc, by rw [mapUpdate_other _ _ _ _ he]; exact hacc, hlock⟩

theorem handle_dispute_locked_preserved (st : HashMapLedger) (d : DisputeTransaction)
    (c : Nat) (acc : Account) (hacc : st.accounts_by_client_id c = some acc)
    (hlock : acc.is_locked = true) :
    ∃ acc2, (handle_dispute st d).2.accounts_by_client_id c = some acc2 ∧
      acc2.is_locked = true := by
  unfold handle_dispute
  rcases hA : st.accounts_by_client_id d.client_id with _ | account <;> simp only [hA]
  · exact ⟨acc, hacc, hlock⟩
  have hsame : c = d.client_id → acc = account := by
    intro he; subst he; rw [hacc] at hA; exact Option.some.inj hA
  rcases hT : st.transactions_by_id d.tx_id with _ | txd <;> simp only [hT]
  · exact ⟨acc, hacc, hlock⟩
  by_cases hc : d.client_id ≠ txd.client_id
  · simp only [if_pos hc]; exact ⟨acc, hacc, hlock⟩
  simp only [if_neg hc]
  rcases htt : txd.tx_type with _ | _
  · rcases hdt : d.tx_type with _ | _ | _
    · rcases hds : txd.dispute_status with _ | s
      · exact mapUpdate_locked hacc hlock (fun he => by rw [← hsame he]; exact hlock)
      · exact ⟨acc, hacc, hlock⟩
    · rcases hds : txd.dispute_status with _ | s
      · exact ⟨acc, hacc, hlock⟩
      · rcases s with _ | _
        · exact mapUpdate_locked hacc hlock (fun he => by rw [← hsame he]; exact hlock)
        · exact ⟨acc, hacc, hlock⟩
    · rcases hds : txd.dispute_status with _ | s
      · exact ⟨acc, hacc, hlock⟩
      · rcases s with _ | _
        · exact mapUpdate_locked hacc hlock (fun he => rfl)
        · exact ⟨acc, hacc, hlock⟩
  · exact ⟨acc, hacc, hlock⟩

theorem handle_standard_locked_preserved (st : HashMapLedger) (s : StandardTransaction)
    (c : Nat) (acc : Account) (hacc : st.accounts_by_client_id c = some acc)
    (hlock : acc.is_locked = true) :
    ∃ acc2, (handle_standard st s).2.accounts_by_client_id c = some acc2 ∧
      acc2.is_locked = true := by
  simp only [handle_standard]
  by_cases h0 : s.amount ≤ 0
  · simp only [if_pos h0]; exact ⟨acc, hacc, hlock⟩
  simp only [if_neg h0]
  rcases hg : st.accounts_by_client_id s.client_id with _ | a
  · rw [getOrInsert_of_none st s.client_id hg]
    have hcne : c ≠ s.client_id := by
      intro he; rw [he, hg] at hacc; cases hacc
    refine ⟨acc, ?_, hlock⟩
    split
    · simp only [mapUpdate_other _ _ _ _ hcne]; exact hacc
    · split
      · simp only [mapUpdate_other _ _ _ _ hcne]; exact hacc
      · split
        · simp only [mapUpdate_other _ _ _ _ hcne]; exact hacc
        · simp only [mapUpdate_other _ _ _ _ hcne]; exact hacc
  · rw [getOrInsert_of_some st s.client_id a hg]
    have hsame : c = s.client_id → acc = a := by
      intro he; subst he; rw [hacc] at hg; exact Option.some.inj hg
    split
    · exact ⟨acc, hacc, hlock⟩
    · rename_i hnl
      split
      · exact ⟨acc, hacc, hlock⟩
      · have hl2 : ∀ acc2 : Account, acc2.is_locked = a.is_locked →
            c = s.client_id → acc2.is_locked = true := by
          intro acc2 hi he
          exact absurd (by rw [← (hsame he)]; exact hlock : a.is_locked = true) hnl
        split
        · exact mapUpdate_locked hacc hlock (hl2 _ rfl)
        · exact mapUpdate_locked hacc hlock (hl2 _ rfl)

theorem handle_dispute_dispute_success (st : HashMapLedger) (d : DisputeTransaction)
    (acc : Account) (rec : StandardTransaction)
    (hacc : st.accounts_by_client_id d.client_id = some acc)
    (hrec : st.transactions_by_id d.tx_id = some rec)
    (hclient : d.client_id = rec.client_id)
    (hkind : rec.tx_type = StandardTransactionType.Deposit)
    (hstatus : rec.dispute_status = none)
    (hd : d.tx_type = DisputeTransactionType.Dispute) :
    handle_dispute st d = (Except.ok (),
      { transactions_by_id := mapUpdate st.transactions_by_id d.tx_id
          { rec with dispute_status := some DisputeStatus.Unresolved }
        accounts_by_client_id := mapUpdate st.accounts_by_client_id d.client_id
          { acc with
              available := acc.available - rec.amount
              held := acc.held + rec.amount } }) := by
  have hne : ¬ d.client_id ≠ rec.client_id := by simp [hclient]
  simp only [handle_dispute, hacc, hrec, hkind, hd, hstatus, if_neg hne]

theorem handle_dispute_resolve_success (st : HashMapLedger) (d : DisputeTransaction)
    (acc : Account) (rec : StandardTransaction)
    (hacc : st.accounts_by_client_id d.client_id = some acc)
    (hrec : st.transactions_by_id d.tx_id = some rec)
    (hclient : d.client_id = rec.client_id)
    (hkind : rec.tx_type = StandardTransactionType.Deposit)
    (hstatus : rec.dispute_status = some DisputeStatus.Unresolved)
    (hd : d.tx_type = DisputeTransactionType.Resolve) :
    handle_dispute st d = (Except.ok (),
      { transactions_by_id := mapUpdate st.transactions_by_id d.tx_id
          { rec with dispute_status := none }
        accounts_by_client_id := mapUpdate st.accounts_by_client_id d.client_id
          { acc with
              available := acc.available + rec.amount
              held := acc.held - rec.amount } }) := by
  have hne : ¬ d.client_id ≠ rec.client_id := by simp [hclient]
  simp only [handle_dispute, hacc, hrec, hkind, hd, hstatus, if_neg hne]

theorem handle_dispute_chargeback_success (st : HashMapLedger) (d : DisputeTransaction)
    (acc : Account) (rec : StandardTransaction)
    (hacc : st.accounts_by_client_id d.client_id = some acc)
    (hrec : st.transactions_by_id d.tx_id = some rec)
    (hclient : d.client_id = rec.client_id)
    (hkind : rec.tx_type = StandardTransactionType.Deposit)
    (hstatus : rec.dispute_status = some DisputeStatus.Unresolved)
    (hd : d.tx_type = DisputeTransactionType.Chargeback) :
    handle_dispute st d = (Except.ok (),
      { transactions_by_id := mapUpdate st.transactions_by_id d.tx_id
          { rec with dispute_status := some DisputeStatus.Chargeback }
        accounts_by_client_id := mapUpdate st.accounts_by_client_id d.client_id
          { acc with
              held := acc.held - rec.amount
              is_locked := true } }) := by
  have hne : ¬ d.client_id ≠ rec.client_id := by simp [hclient]
  simp only [handle_dispute, hacc, hrec, hkind, hd, hstatus, if_neg hne]

/-! ### The claims -/

/-- C1: atomicity of apply fails at a duplicate transaction id. Replaying the
recorded deposit `depTx5` against `stDup` is rejected with the duplicate-id
error, yet client 1's available balance moves from 5 to 10 — the rejected
transaction leaves a partial mutation behind, against the claim that an
erroring `handle_transaction` leaves the ledger exactly as before. -/
theorem c1_duplicate_deposit_rejected_yet_balance_mutated :
    (handle_transaction stDup (Transaction.Standard depTx5)).1 =
      Except.error "Duplicate transaction id: 1" ∧
    (stDup.accounts_by_client_id 1).map Account.available = some 5 ∧
    ((handle_transaction stDup (Transaction.Standard depTx5)).2.accounts_by_client_id 1).map
      Account.available = some 10 := by
  refine ⟨?_, ?_, ?_⟩
  · rfl
  · rfl
  · norm_num [handle_transaction, handle_standard, stDup, depTx5, getOrInsert, mapUpdate]

/-- C2: a standard transaction reusing an already-recorded id (positive
amount, unlocked account, sufficient funds for a withdrawal) is rejected with
the duplicate-id error and the stored record is not overwritten, but the
client's available balance has already been changed by the transaction's
amount before the duplicate check runs. -/
theorem c2_duplicate_id_rejected_not_overwritten_balance_changed (st : HashMapLedger) (t rec : StandardTransaction)
    (acc0 : Account) (st1 : HashMapLedger)
    (hdup : st.transactions_by_id t.tx_id = some rec)
    (hpos : 0 < t.amount)
    (hget : getOrInsert st t.client_id = (acc0, st1))
    (hlock : acc0.is_locked = false)
    (hfunds : t.tx_type = StandardTransactionType.Withdrawal → t.amount ≤ acc0.available) :
    (handle_standard st t).1 =
      Except.error ("Duplicate transaction id: " ++ toString t.tx_id) ∧
    (handle_standard st t).2.transactions_by_id t.tx_id = some rec ∧
    (handle_standard st t).2.accounts_by_client_id t.client_id = some
      { acc0 with available :=
          (match t.tx_type with
           | StandardTransactionType.Deposit => acc0.available + t.amount
           | StandardTransactionType.Withdrawal => acc0.available - t.amount) } := by
  have h0 : ¬ t.amount ≤ 0 := not_le.mpr hpos
  have hw : ¬ (t.tx_type = StandardTransactionType.Withdrawal ∧ acc0.available < t.amount) := by
    rintro ⟨hw, hlt⟩
    exact absurd hlt (not_lt.mpr (hfunds hw))
  have htr1 : st1.transactions_by_id = st.transactions_by_id := by
    have h2 := getOrInsert_transactions st t.client_id
    rw [hget] at h2
    exact h2
  simp only [handle_standard, hget, if_neg h0, hlock, Bool.false_eq_true, if_false,
    if_neg hw, htr1, hdup, mapUpdate_same]
  exact ⟨trivial, trivial, trivial⟩

/-- C2 witness: concrete duplicate deposit of 7 on `stDup`. -/
theorem c2_duplicate_id_witness :
    stDup.transactions_by_id 1 = some depTx5 ∧
    (0:Rat) < 7 ∧
    (handle_standard stDup depTx7).1 =
      Except.error ("Duplicate transaction id: " ++ toString (1:Nat)) ∧
    (handle_standard stDup depTx7).2.transactions_by_id 1 = some depTx5 ∧
    (handle_standard stDup depTx7).2.accounts_by_client_id 1 =
      some { client_id := 1, available := 5 + 7, held := 0, is_locked := false } := by
  have h := c2_duplicate_id_rejected_not_overwritten_balance_changed stDup depTx7 depTx5
    { client_id := 1, available := 5, held := 0, is_locked := false } stDup
    rfl (by decide) rfl rfl (fun hx => nomatch hx)
  exact ⟨rfl, by decide, h.1, h.2.1, h.2.2⟩

/-- C3: a Dispute referencing a recorded undisputed deposit (account exists,
client id matches) succeeds, sets the deposit's status to Unresolved, moves
exactly the deposit's amount from available to held leaving the total
unchanged; available may become negative (concrete deficit instance on
`negSt` included). -/
theorem c3_dispute_moves_amount_to_held (st : HashMapLedger) (d : DisputeTransaction)
    (acc : Account) (rec : StandardTransaction)
    (hacc : st.accounts_by_client_id d.client_id = some acc)
    (hrec : st.transactions_by_id d.tx_id = some rec)
    (hclient : d.client_id = rec.client_id)
    (hkind : rec.tx_type = StandardTransactionType.Deposit)
    (hstatus : rec.dispute_status = none)
    (hd : d.tx_type = DisputeTransactionType.Dispute) :
    (handle_dispute st d).1 = Except.ok () ∧
    (handle_dispute st d).2.transactions_by_id d.tx_id =
      some { rec with dispute_status := some DisputeStatus.Unresolved } ∧
    (handle_dispute st d).2.accounts_by_client_id d.client_id =
      some { acc with
        available := acc.available - rec.amount
        held := acc.held + rec.amount } ∧
    ({ acc with
        available := acc.available - rec.amount
        held := acc.held + rec.amount } : Account).total = acc.total ∧
    ((handle_dispute negSt negD).1 = Except.ok () ∧
      ((handle_dispute negSt negD).2.accounts_by_client_id 1).map Account.available =
        some ((1:Rat)/2 - 1) ∧
      ((1:Rat)/2 - 1) < 0) := by
  have h1 := handle_dispute_dispute_success st d acc rec hacc hrec hclient hkind hstatus hd
  rw [h1]
  refine ⟨rfl, mapUpdate_same _ _ _, mapUpdate_same _ _ _, ?_, ?_⟩
  · simp only [Account.total]
    ring
  · exact ⟨rfl, rfl, by norm_num⟩

/-- C3 witness: concrete dispute on `negSt`. -/
theorem c3_dispute_witness :
    negSt.accounts_by_client_id 1 =
      some { client_id := 1, available := 1/2, held := 0, is_locked := false } ∧
    negSt.transactions_by_id 1 = some negRec ∧
    (handle_dispute negSt negD).1 = Except.ok () ∧
    (handle_dispute negSt negD).2.transactions_by_id 1 =
      some { negRec with dispute_status := some DisputeStatus.Unresolved } ∧
    (handle_dispute negSt negD).2.accounts_by_client_id 1 =
      some { client_id := 1, available := 1/2 - 1, held := 0 + 1, is_locked := false } := by
  have h := c3_dispute_moves_amount_to_held negSt negD
    { client_id := 1, available := 1/2, held := 0, is_locked := false } negRec
    rfl rfl rfl rfl rfl rfl
  exact ⟨rfl, rfl, h.1, h.2.1, h.2.2.1⟩

/-- C4: a successful Dispute followed by a Resolve for the same transaction
id and client restores the ledger state exactly. -/
theorem c4_dispute_then_resolve_restores_state (st : HashMapLedger) (d : DisputeTransaction)
    (acc : Account) (rec : StandardTransaction)
    (hacc : st.accounts_by_client_id d.client_id = some acc)
    (hrec : st.transactions_by_id d.tx_id = some rec)
    (hclient : d.client_id = rec.client_id)
    (hkind : rec.tx_type = StandardTransactionType.Deposit)
    (hstatus : rec.dispute_status = none)
    (hd : d.tx_type = DisputeTransactionType.Dispute) :
    (handle_dispute st d).1 = Except.ok () ∧
    (handle_dispute (handle_dispute st d).2
      { tx_type := DisputeTransactionType.Resolve
        client_id := d.client_id
        tx_id := d.tx_id }).1 = Except.ok () ∧
    (handle_dispute (handle_dispute st d).2
      { tx_type := DisputeTransactionType.Resolve
        client_id := d.client_id
        tx_id := d.tx_id }).2 = st := by
  obtain ⟨T, A⟩ := st
  obtain ⟨rtt, rc, ri, ra, rs⟩ := rec
  obtain ⟨ac, av, ah, al⟩ := acc
  simp only at hacc hrec hclient hkind hstatus
  subst hkind hstatus
  have h1 := handle_dispute_dispute_success ⟨T, A⟩ d _ _ hacc hrec hclient rfl rfl hd
  simp only at h1
  have h2 := handle_dispute_resolve_success (handle_dispute ⟨T, A⟩ d).2
    { tx_type := DisputeTransactionType.Resolve, client_id := d.client_id, tx_id := d.tx_id }
    { client_id := ac, available := av - ra, held := ah + ra, is_locked := al }
    { tx_type := StandardTransactionType.Deposit, client_id := rc, tx_id := ri, amount := ra,
      dispute_status := some DisputeStatus.Unresolved }
    (by rw [h1]; exact mapUpdate_same _ _ _)
    (by rw [h1]; exact mapUpdate_same _ _ _)
    hclient rfl rfl rfl
  simp only at h2
  refine ⟨by rw [h1], by rw [h2], ?_⟩
  rw [h2, h1]
  simp only
  have hT : mapUpdate (mapUpdate T d.tx_id
      { tx_type := StandardTransactionType.Deposit, client_id := rc, tx_id := ri, amount := ra,
        dispute_status := some DisputeStatus.Unresolved }) d.tx_id
      { tx_type := StandardTransactionType.Deposit, client_id := rc, tx_id := ri, amount := ra,
        dispute_status := none } = T := by
    funext k
    by_cases hk : k = d.tx_id
    · subst hk
      rw [mapUpdate_same]
      exact hrec.symm
    · rw [mapUpdate_other _ _ _ _ hk, mapUpdate_other _ _ _ _ hk]
  have hA : mapUpdate (mapUpdate A d.client_id
      { client_id := ac, available := av - ra, held := ah + ra, is_locked := al }) d.client_id
      { client_id := ac, available := av - ra + ra, held := ah + ra - ra, is_locked := al } = A := by
    funext k
    by_cases hk : k = d.client_id
    · subst hk
      rw [mapUpdate_same]
      have e1 : av - ra + ra = av := by ring
      have e2 : ah + ra - ra = ah := by ring
      rw [e1, e2]
      exact hacc.symm
    · rw [mapUpdate_other _ _ _ _ hk, mapUpdate_other _ _ _ _ hk]
  rw [HashMapLedger.mk.injEq]
  exact ⟨hT, hA⟩

/-- C4 witness: concrete dispute-resolve roundtrip on `negSt`. -/
theorem c4_roundtrip_witness :
    negSt.transactions_by_id 1 = some negRec ∧
    negRec.dispute_status = none ∧
    (handle_dispute negSt negD).1 = Except.ok () ∧
    (handle_dispute (handle_dispute negSt negD).2
      { tx_type := DisputeTransactionType.Resolve, client_id := 1, tx_id := 1 }).1 =
        Except.ok () ∧
    (handle_dispute (handle_dispute negSt negD).2
      { tx_type := DisputeTransactionType.Resolve, client_id := 1, tx_id := 1 }).2 = negSt := by
  have h := c4_dispute_then_resolve_restores_state negSt negD
    { client_id := 1, available := 1/2, held := 0, is_locked := false } negRec
    rfl rfl rfl rfl rfl rfl
  exact ⟨rfl, rfl, h.1, h.2.1, h.2.2⟩

/-- C5: a Chargeback on an Unresolved deposit succeeds, sets the status to
ChargedBack, removes the amount from held (total drops by the amount,
available untouched) and locks the account; from any state in which the
record is ChargedBack, every Dispute/Resolve/Chargeback referencing that id
is rejected without state change, and no transaction ever changes that
record again — ChargedBack is terminal. -/
theorem c5_chargeback_locks_and_is_terminal (st : HashMapLedger) (d : DisputeTransaction)
    (acc : Account) (rec : StandardTransaction)
    (hacc : st.accounts_by_client_id d.client_id = some acc)
    (hrec : st.transactions_by_id d.tx_id = some rec)
    (hclient : d.client_id = rec.client_id)
    (hkind : rec.tx_type = StandardTransactionType.Deposit)
    (hstatus : rec.dispute_status = some DisputeStatus.Unresolved)
    (hd : d.tx_type = DisputeTransactionType.Chargeback) :
    (handle_dispute st d).1 = Except.ok () ∧
    (handle_dispute st d).2.transactions_by_id d.tx_id =
      some { rec with dispute_status := some DisputeStatus.Chargeback } ∧
    (handle_dispute st d).2.accounts_by_client_id d.client_id =
      some { acc with held := acc.held - rec.amount, is_locked := true } ∧
    ({ acc with held := acc.held - rec.amount, is_locked := true } : Account).total =
      acc.total - rec.amount ∧
    (∀ st2 rec2, st2.transactions_by_id d.tx_id = some rec2 →
      rec2.dispute_status = some DisputeStatus.Chargeback →
      (∀ d2 : DisputeTransaction, d2.tx_id = d.tx_id →
        (∃ e, (handle_dispute st2 d2).1 = Except.error e) ∧
        (handle_dispute st2 d2).2 = st2) ∧
      (∀ t2 : Transaction,
        (handle_transaction st2 t2).2.transactions_by_id d.tx_id = some rec2)) := by
  have h1 := handle_dispute_chargeback_success st d acc rec hacc hrec hclient hkind hstatus hd
  rw [h1]
  refine ⟨rfl, mapUpdate_same _ _ _, mapUpdate_same _ _ _, ?_, ?_⟩
  · simp only [Account.total]
    ring
  · intro st2 rec2 h2 hcb
    constructor
    · intro d2 hid
      obtain ⟨e, he⟩ := chargeback_blocks_dispute_family st2 d2 rec2 (by rw [hid]; exact h2) hcb
      exact ⟨⟨e, he⟩, handle_dispute_error_state st2 d2 e he⟩
    · intro t2
      cases t2 with
      | Standard s => exact handle_standard_preserves_recorded st2 s _ _ h2
      | Dispute dd => exact handle_dispute_preserves_chargeback st2 dd _ _ h2 hcb

/-- C5 witness: concrete chargeback on `cbSt`, and the follow-up chargeback
is rejected. -/
theorem c5_chargeback_witness :
    cbSt.transactions_by_id 1 = some cbRec ∧
    cbRec.dispute_status = some DisputeStatus.Unresolved ∧
    (handle_dispute cbSt cbD).1 = Except.ok () ∧
    (handle_dispute cbSt cbD).2.transactions_by_id 1 =
      some { cbRec with dispute_status := some DisputeStatus.Chargeback } ∧
    (handle_dispute cbSt cbD).2.accounts_by_client_id 1 =
      some { client_id := 1, available := -(1/2), held := 1 - 1, is_locked := true } ∧
    (∃ e, (handle_dispute (handle_dispute cbSt cbD).2 cbD).1 = Except.error e) := by
  have h := c5_chargeback_locks_and_is_terminal cbSt cbD
    { client_id := 1, available := -(1/2), held := 1, is_locked := false } cbRec
    rfl rfl rfl rfl rfl rfl
  refine ⟨rfl, rfl, h.1, h.2.1, h.2.2.1, ?_⟩
  exact ((h.2.2.2.2 (handle_dispute cbSt cbD).2 _ h.2.1 rfl).1 cbD rfl).1

/-- C6 counterexample: re-applying the recorded deposit `depTx5` to `stDup`
is rejected (duplicate id) but still changes the ledger state, refuting the
claim that a rejected transaction leaves the ledger unchanged. -/
theorem c6_rejected_standard_changes_state_counterexample :
    (handle_transaction stDup (Transaction.Standard depTx5)).1 =
      Except.error "Duplicate transaction id: 1" ∧
    (handle_transaction stDup (Transaction.Standard depTx5)).2 ≠ stDup := by
  constructor
  · rfl
  · intro h
    have h10 : ((handle_transaction stDup (Transaction.Standard depTx5)).2.accounts_by_client_id
        1).map Account.available = some 10 := by
      norm_num [handle_transaction, handle_standard, stDup, depTx5, getOrInsert, mapUpdate]
    have h5 : (stDup.accounts_by_client_id 1).map Account.available = some 5 := rfl
    rw [h] at h10
    rw [h5] at h10
    exact absurd (Option.some.inj h10) (by norm_num)

/-- C6 (amended to dispute-family transactions): a rejected
dispute/resolve/chargeback leaves the state unchanged, and re-issuing the
identical transaction is rejected with the same error, again without state
change. -/
theorem c6_dispute_rejection_idempotent (st : HashMapLedger) (d : DisputeTransaction) (e : String)
    (h : (handle_dispute st d).1 = Except.error e) :
    (handle_dispute st d).2 = st ∧
    (handle_dispute (handle_dispute st d).2 d).1 = Except.error e ∧
    (handle_dispute (handle_dispute st d).2 d).2 = st := by
  have hs := handle_dispute_error_state st d e h
  refine ⟨hs, ?_, ?_⟩ <;> rw [hs]
  · exact h
  · exact hs

/-- C6 witness: a dispute on the empty ledger is rejected twice with the
same error and no state change. -/
theorem c6_rejection_witness :
    (handle_dispute HashMapLedger.new
      { tx_type := DisputeTransactionType.Dispute, client_id := 1, tx_id := 1 }).1 =
      Except.error ("No account found with client id: " ++ toString (1:Nat)) ∧
    (handle_dispute HashMapLedger.new
      { tx_type := DisputeTransactionType.Dispute, client_id := 1, tx_id := 1 }).2 =
      HashMapLedger.new ∧
    (handle_dispute (handle_dispute HashMapLedger.new
      { tx_type := DisputeTransactionType.Dispute, client_id := 1, tx_id := 1 }).2
      { tx_type := DisputeTransactionType.Dispute, client_id := 1, tx_id := 1 }).1 =
      Except.error ("No account found with client id: " ++ toString (1:Nat)) := by
  have h := c6_dispute_rejection_idempotent HashMapLedger.new
    { tx_type := DisputeTransactionType.Dispute, client_id := 1, tx_id := 1 }
    ("No account found with client id: " ++ toString (1:Nat)) rfl
  exact ⟨rfl, h.1, h.2.1⟩

/-- C7: once an account's locked flag is true, applying any further
transaction (of any kind, for any client) never resets it to false. -/
theorem c7_locked_flag_monotonic (st : HashMapLedger) (t : Transaction) (c : Nat) (acc : Account)
    (hacc : st.accounts_by_client_id c = some acc)
    (hlock : acc.is_locked = true) :
    ∃ acc2, (handle_transaction st t).2.accounts_by_client_id c = some acc2 ∧
      acc2.is_locked = true := by
  cases t with
  | Standard s => exact handle_standard_locked_preserved st s c acc hacc hlock
  | Dispute d => exact handle_dispute_locked_preserved st d c acc hacc hlock

/-- C7 witness: a dispute applied on `stLockedDisp` keeps client 1 locked. -/
theorem c7_locked_witness :
    stLockedDisp.accounts_by_client_id 1 =
      some { client_id := 1, available := 3, held := 0, is_locked := true } ∧
    ∃ acc2,
      (handle_transaction stLockedDisp (Transaction.Dispute dOnLocked)).2.accounts_by_client_id 1 =
        some acc2 ∧ acc2.is_locked = true := by
  exact ⟨rfl, c7_locked_flag_monotonic stLockedDisp (Transaction.Dispute dOnLocked) 1
    { client_id := 1, available := 3, held := 0, is_locked := true } rfl rfl⟩

/-- C8 counterexample: a zero-amount deposit for the locked client 1 is
rejected with the invalid-amount error, not the locked-account error, so not
every deposit for a locked client is rejected with the locked-account
error. -/
theorem c8_zero_amount_not_locked_error_counterexample :
    (stLockedDisp.accounts_by_client_id 1).map Account.is_locked = some true ∧
    (handle_transaction stLockedDisp (Transaction.Standard zeroDepLocked)).1 =
      Except.error "Amount cannot be negative" ∧
    "Amount cannot be negative" ≠ "Account is locked for client id: 1" := by
  exact ⟨rfl, rfl, by decide⟩

/-- C8 (amended to strictly positive amounts): a deposit or withdrawal with
positive amount for a locked account is rejected with the locked-account
error with the ledger exactly unchanged, while dispute-family transactions
carry no lock check and can still succeed (concrete instance on the locked
ledger `stLockedDisp`). -/
theorem c8_lock_blocks_positive_standard_only (st : HashMapLedger) (s : StandardTransaction) (acc : Account)
    (hacc : st.accounts_by_client_id s.client_id = some acc)
    (hlock : acc.is_locked = true) (hpos : 0 < s.amount) :
    handle_standard st s =
      (Except.error ("Account is locked for client id: " ++ toString s.client_id), st) ∧
    (handle_dispute stLockedDisp dOnLocked).1 = Except.ok () := by
  constructor
  · simp [handle_standard, getOrInsert_of_some st s.client_id acc hacc,
      not_le.mpr hpos, hlock]
  · rfl

/-- C8 witness: concrete positive deposit on the locked ledger. -/
theorem c8_lock_witness :
    stLockedDisp.accounts_by_client_id 1 =
      some { client_id := 1, available := 3, held := 0, is_locked := true } ∧
    (0:Rat) < 4 ∧
    handle_standard stLockedDisp posDepLocked =
      (Except.error ("Account is locked for client id: " ++ toString (1:Nat)), stLockedDisp) ∧
    (handle_dispute stLockedDisp dOnLocked).1 = Except.ok () := by
  have h := c8_lock_blocks_positive_standard_only stLockedDisp posDepLocked
    { client_id := 1, available := 3, held := 0, is_locked := true } rfl rfl (by decide)
  exact ⟨rfl, by decide, h.1, h.2⟩

/-- C9: any dispute-family transaction that passes the account, transaction
and client-match checks but references a recorded Withdrawal is rejected
with the cannot-dispute-withdrawal error and the state is unchanged,
regardless of balances, lock flag or dispute status. -/
theorem c9_withdrawals_never_disputable (st : HashMapLedger) (d : DisputeTransaction)
    (acc : Account) (rec : StandardTransaction)
    (hacc : st.accounts_by_client_id d.client_id = some acc)
    (hrec : st.transactions_by_id d.tx_id = some rec)
    (hclient : d.client_id = rec.client_id)
    (hw : rec.tx_type = StandardTransactionType.Withdrawal) :
    handle_dispute st d = (Except.error "Cannot dispute withdrawals", st) := by
  have hne : ¬ d.client_id ≠ rec.client_id := by simp [hclient]
  simp only [handle_dispute, hacc, hrec, if_neg hne, hw]

/-- C9 witness: a Resolve referencing the recorded withdrawal in `wdSt`. -/
theorem c9_withdrawal_witness :
    wdSt.transactions_by_id 3 = some wdRec ∧
    wdRec.tx_type = StandardTransactionType.Withdrawal ∧
    handle_dispute wdSt wdD = (Except.error "Cannot dispute withdrawals", wdSt) := by
  exact ⟨rfl, rfl, c9_withdrawals_never_disputable wdSt wdD
    { client_id := 1, available := 0, held := 0, is_locked := true } wdRec rfl rfl rfl rfl⟩

/-- C10: a standard transaction with amount ≤ 0 creates no account (state
exactly unchanged); with positive amount and an unseen client an account is
inserted even when the transaction itself is rejected — in particular a
first-ever withdrawal fails with insufficient funds yet leaves a fresh
zeroed unlocked account behind. -/
theorem c10_account_creation_on_rejected_standard (st : HashMapLedger) (s : StandardTransaction) :
    (s.amount ≤ 0 → handle_standard st s = (Except.error "Amount cannot be negative", st)) ∧
    (0 < s.amount → st.accounts_by_client_id s.client_id = none →
      ∃ acc2, (handle_standard st s).2.accounts_by_client_id s.client_id = some acc2) ∧
    (0 < s.amount → st.accounts_by_client_id s.client_id = none →
      s.tx_type = StandardTransactionType.Withdrawal →
      handle_standard st s =
        (Except.error "Insufficient funds available to process withdrawal",
          { st with accounts_by_client_id :=
              mapUpdate st.accounts_by_client_id s.client_id (Account.new s.client_id) })) := by
  refine ⟨?_, ?_, ?_⟩
  · intro h0
    simp only [handle_standard, if_pos h0]
  · intro hpos hnone
    simp only [handle_standard, if_neg (not_le.mpr hpos),
      getOrInsert_of_none st s.client_id hnone, Account.new]
    simp only [Bool.false_eq_true, if_false]
    split
    · exact ⟨_, mapUpdate_same _ _ _⟩
    · split
      · exact ⟨_, mapUpdate_same _ _ _⟩
      · exact ⟨_, mapUpdate_same _ _ _⟩
  · intro hpos hnone hw
    simp [handle_standard, not_le.mpr hpos, getOrInsert_of_none st s.client_id hnone,
      Account.new, hw, hpos]

/-- C10 witness: first-ever withdrawal on the empty ledger. -/
theorem c10_creation_witness :
    (0:Rat) < 5 ∧
    HashMapLedger.new.accounts_by_client_id 1 = none ∧
    handle_standard HashMapLedger.new firstWd =
      (Except.error "Insufficient funds available to process withdrawal",
        { HashMapLedger.new with accounts_by_client_id := mapUpdate HashMapLedger.new.accounts_by_client_id 1 (Account.new 1) }) := by
  exact ⟨by decide, rfl, (c10_account_creation_on_rejected_standard HashMapLedger.new firstWd).2.2 (by decide) rfl rfl⟩

end Payments
